import Mathlib

/-!
Shallow embedding of the MQTT sink / handshake core of this repository
(`src/v3/sink.rs`, `src/v5/server.rs`), with the auxiliary vocabulary of
`shared.rs`, the wire codec and the error module — which are not part of the
given sources — modelled from the specification where the sink code needs
them.  Machine integers (`u16`, `usize`) are modelled as `Nat`; the packet-id
allocator applies `% 65536` explicitly where the `u16` wraps.  One-shot
channels are modelled by their observable half: a `Bool` that records whether
the receiving side is still alive (`tx.send` succeeds iff it is), and the
effect of a send is recorded in the function's result.
-/

set_option autoImplicit false

namespace Mqtt

/-- Modelled from the spec (§3): the wire codec's QoS tag as used by
`codec::QoS` in `sink.rs` (the codec crate is not under src/). -/
inductive QoS
  | atMostOnce
  | atLeastOnce
  | exactlyOnce
deriving DecidableEq, Repr

namespace V3

/-- Modelled from the spec (§3 "AckType"): `shared.rs` is not under src/.
The v3 sink registers exactly these three expected-reply tags
(`AckType::Publish`, `AckType::Subscribe`, `AckType::Unsubscribe`). -/
inductive AckType
  | publish
  | subscribe
  | unsubscribe
deriving DecidableEq, Repr

/-- Modelled from the spec (§3 "AckType"): `AckType::name()` used by
`pkt_ack` for the `Unexpected` error payload. -/
def AckType.name : AckType → String
  | .publish => "PublishAck"
  | .subscribe => "SubscribeAck"
  | .unsubscribe => "UnsubscribeAck"

/-- Modelled from the spec (§3 "Ack"): an inbound acknowledgement carrying
`(packet_id, type)`; `shared.rs` is not under src/.  The payload is not
needed by any claim and is omitted. -/
structure Ack where
  packet_id : Nat
  tp : AckType
deriving DecidableEq, Repr

/-- Modelled from the spec (§3 "Ack"): `is_match(expected AckType) → bool`
compares the ack's own type tag with the expected one. -/
def Ack.is_match (a : Ack) (expected : AckType) : Bool :=
  a.tp == expected

/-- Modelled from the spec (§3 "Ack"): the wire packet type of the inbound
ack, reported inside `ProtocolError::Unexpected`; for an ack it is determined
by its type tag (MQTT control-packet type codes PUBACK=4, SUBACK=9,
UNSUBACK=11). -/
def Ack.packet_type (a : Ack) : Nat :=
  match a.tp with
  | .publish => 4
  | .subscribe => 9
  | .unsubscribe => 11

/-- `error::ProtocolError` as used by `pkt_ack` (`error.rs` is not under
src/; the two variants and their payloads are taken from the spec §6 and the
constructor calls in `sink.rs:114,133`). -/
inductive ProtocolError
  | PacketIdMismatch
  | Unexpected (packetType : Nat) (expectedName : String)
deriving DecidableEq, Repr

/-- Encode error of the external codec; its content is opaque to the sink,
which only forwards it (`SendPacketError::Encode(err)`). -/
structure EncodeError where
  code : Nat
deriving DecidableEq, Repr

/-- `error::SendPacketError` as used by the builders in `sink.rs`
(`error.rs` is not under src/; variants and payloads from the spec §6 and the
constructor calls in `sink.rs`). -/
inductive SendPacketError
  | Encode (e : EncodeError)
  | Disconnected
  | PacketIdInUse (id : Nat)
deriving DecidableEq, Repr

/-- `codec::Publish` (`sink.rs:70-78`): the packet assembled by
`PublishBuilder`.  `ByteString`/`Bytes` are modelled as `String` / byte
list; `packet_id : Option<NonZeroU16>` as `Option Nat`. -/
structure Publish where
  topic : String
  payload : List Nat
  dup : Bool
  retain : Bool
  qos : QoS
  packet_id : Option Nat
deriving DecidableEq, Repr

/-- The outbound packets the v3 sink encodes (`codec::Packet` constructors
used in `sink.rs`; the codec crate is not under src/). -/
inductive Packet
  | publish (p : Publish)
  | subscribe (packet_id : Nat) (topic_filters : List (String × QoS))
  | unsubscribe (packet_id : Nat) (topic_filters : List String)
  | pingRequest
deriving DecidableEq, Repr

/-- One entry of the `inflight` map: packet id ↦ (one-shot reply channel,
expected `AckType`).  The channel is represented by whether its receiver is
still alive (`rxAlive`): `tx.send` succeeds iff the receiver is alive, and a
receiver whose sender is dropped without a send observes failure. -/
structure InflightEntry where
  id : Nat
  rxAlive : Bool
  tp : AckType
deriving DecidableEq, Repr

/-- `HashMap::contains_key` on the inflight map (keyed by packet id). -/
def containsId : List InflightEntry → Nat → Bool
  | [], _ => false
  | e :: es, i => e.id == i || containsId es i

/-- `HashMap::remove` on the inflight map: the removed entry and the map
without it. -/
def removeEntry : List InflightEntry → Nat → Option (InflightEntry × List InflightEntry)
  | [], _ => none
  | e :: es, i =>
      if e.id == i then some (e, es)
      else (removeEntry es i).map (fun p => (p.1, e :: p.2))

/-- The three shared queues of `MqttShared` (`sink.rs` accesses them through
`self.0.queues.borrow_mut()`): the inflight map, the send-order sequence
(front = oldest), and the FIFO of credit waiters.  A waiter is its one-shot
channel, represented by whether the receiving side is still alive. -/
structure Queues where
  inflight : List InflightEntry
  inflight_order : List Nat
  waiters : List Bool
deriving DecidableEq, Repr

/-- State of the framed byte stream (`ntex::framed::State` as driven by the
sink: `is_open`, `close`, `force_close`). -/
inductive FramedState
  | opened
  | closed
  | forceClosed
deriving DecidableEq, Repr

/-- `MqttShared` (per-connection shared state): framed-stream state, the
receive-maximum `cap`, the packet-id counter of the allocator (modelled from
the spec, §3), the sequence of packets successfully encoded into the write
buffer, and the queues. -/
structure MqttShared where
  framed : FramedState
  cap : Nat
  next_id_ctr : Nat
  written : List Packet
  queues : Queues
deriving DecidableEq, Repr

/-- `state.is_open()`. -/
def is_open (s : MqttShared) : Bool :=
  s.framed == .opened

/-- `state.write().encode(packet, codec)`: the codec either accepts the
packet (appending it to the write buffer) or fails; the codec itself is
external, so its verdict is a parameter `enc`. -/
def writeEncode (enc : Packet → Option EncodeError) (s : MqttShared) (p : Packet) :
    MqttShared × Option EncodeError :=
  match enc p with
  | none => ({ s with written := s.written ++ [p] }, none)
  | some e => (s, some e)

/-- `MqttSink::credit` (`sink.rs:21-23`):
`self.0.cap.get() - self.0.queues.borrow().inflight.len()` (usize
subtraction, modelled as truncated `Nat` subtraction). -/
def credit (s : MqttShared) : Nat :=
  s.cap - s.queues.inflight.length

/-- Modelled from the spec (§4.1, `shared.rs` is not under src/):
`has_credit()` is true iff `inflight.len() < cap`; the same comparison is
visible in `MqttSink::ready` (`sink.rs:32`). -/
def has_credit (s : MqttShared) : Bool :=
  s.queues.inflight.length < s.cap

/-- Modelled from the spec (§3, §4.1; `shared.rs` is not under src/): one
probe of the wrapping 16-bit allocator: advance the counter modulo 2^16 and
accept the value if it is nonzero and not currently inflight, otherwise keep
probing.  The fuel bounds the search by the number of 16-bit values. -/
def nextIdLoop (infl : List InflightEntry) : Nat → Nat → Nat
  | 0, _ => 1
  | fuel + 1, ctr =>
      let c := (ctr + 1) % 65536
      if c ≠ 0 ∧ containsId infl c = false then c
      else nextIdLoop infl fuel c

/-- Modelled from the spec (§3, §4.1; `shared.rs` is not under src/):
`next_id()` — monotonic 16-bit wrapping allocator that skips zero and
currently-inflight ids; mutates the shared counter. -/
def next_id (s : MqttShared) : Nat × MqttShared :=
  let i := nextIdLoop s.queues.inflight 65536 s.next_id_ctr
  (i, { s with next_id_ctr := i })

/-- `MqttSink::close` (`sink.rs:43-50`): if the framed stream is open, close
it; then clear `inflight` and `waiters` (dropping every queued waiter's
sender, which signals failure to its receiver).  `inflight_order` is not
touched. -/
def close (s : MqttShared) : MqttShared :=
  let s := if is_open s then { s with framed := .closed } else s
  { s with queues := { s.queues with inflight := [], waiters := [] } }

/-- `MqttSink::force_close` (`sink.rs:54-61`): like `close` but the framed
stream is force-closed (buffered outbound bytes discarded). -/
def force_close (s : MqttShared) : MqttShared :=
  let s := if is_open s then { s with framed := .forceClosed } else s
  { s with queues := { s.queues with inflight := [], waiters := [] } }

/-- The wake loop of `pkt_ack` (`sink.rs:119-123`): pop waiters from the
front; a send to a dead waiter fails and the loop retries; it stops after the
first successful wake or when the queue is empty.  Returns the remaining
queue and whether a waiter was woken. -/
def wakeOne : List Bool → List Bool × Bool
  | [] => ([], false)
  | w :: ws => if w then (ws, true) else wakeOne ws

/-- Outcome of `MqttSink::pkt_ack`.  `done` carries the new shared state,
whether a credit waiter was woken, the attempted delivery into the popped
id's reply channel (`sent` = the one-shot send succeeded; its result is
ignored by the code), and the returned `Result<(), ProtocolError>`.
`borrowPanic` is the outcome of reaching a call of `self.close()`
(`sink.rs:113` or `sink.rs:132`) while the `RefMut` of `self.0.queues`
taken at `sink.rs:96` is still alive: `close` re-borrows the same `RefCell`
mutably (`sink.rs:47`), which panics with a `BorrowMutError`. -/
inductive AckRes
  | ok
  | fail (e : ProtocolError)
deriving DecidableEq, Repr

/-- Delivery record of `pkt_ack`: the packet id whose channel received the
`tx.send(pkt)` attempt, and whether the send succeeded. -/
structure AckDelivery where
  toId : Nat
  sent : Bool
deriving DecidableEq, Repr

inductive PktAckOutcome
  | borrowPanic
  | done (s : MqttShared) (woke : Bool) (d : AckDelivery) (r : AckRes)
deriving DecidableEq, Repr

/-- `MqttSink::pkt_ack` (`sink.rs:95-134`).  The function takes
`self.0.queues.borrow_mut()` at entry and the guard lives to the end of the
function body, so each of the three error paths — empty `inflight_order`,
order mismatch, and type mismatch — reaches `self.close()` with the borrow
still held and panics (`borrowPanic`) before the `Err(..)` on the following
line could be returned; only the fully matched path returns, with `Ok(())`. -/
def pkt_ack (s : MqttShared) (pkt : Ack) : PktAckOutcome :=
  match s.queues.inflight_order with
  | idx :: rest =>
      if idx == pkt.packet_id then
        match removeEntry s.queues.inflight idx with
        | some (e, inflight') =>
            if pkt.is_match e.tp then
              let wr := wakeOne s.queues.waiters
              .done { s with queues := ⟨inflight', rest, wr.1⟩ } wr.2
                ⟨idx, e.rxAlive⟩ .ok
            else
              -- `self.close()` at sink.rs:113 under the live borrow of sink.rs:96:
              -- BorrowMutError; `Err(Unexpected(pkt.packet_type(), tp.name()))`
              -- at sink.rs:114 is never reached
              .borrowPanic
        | none =>
            -- "Inflight state inconsistency" (sink.rs:126), then falls through to
            -- `self.close()` at sink.rs:132 under the live borrow: BorrowMutError
            .borrowPanic
      else
        -- order mismatch (sink.rs:100-105) falls through to `self.close()` at
        -- sink.rs:132 under the live borrow: BorrowMutError;
        -- `Err(PacketIdMismatch)` at sink.rs:133 is never reached
        .borrowPanic
  | [] =>
      -- empty order queue (sink.rs:130) falls through to `self.close()` at
      -- sink.rs:132 under the live borrow: BorrowMutError
      .borrowPanic

/-- Result of a builder send, `Result<(), SendPacketError>` (the payload of a
resolved subscribe — the peer's return codes — arrives only with the awaited
ack and is outside the synchronous part modelled here). -/
inductive SendResult
  | ok
  | fail (e : SendPacketError)
deriving DecidableEq, Repr

/-- How far a call of an async builder send got before returning or
suspending: `ret` — returned synchronously with a `Result`; `awaitCredit` —
a waiter was enqueued and the future is suspended on its channel
(`rx.await`); `awaitAck` — the packet was encoded, the queues borrow dropped,
and the future is suspended on the reply channel of the given packet id. -/
inductive SendStep
  | ret (s : MqttShared) (r : SendResult)
  | awaitCredit (s : MqttShared)
  | awaitAck (s : MqttShared) (id : Nat)
deriving DecidableEq, Repr

/-- The shared state carried by a `SendStep`. -/
def SendStep.state : SendStep → MqttShared
  | .ret s _ => s
  | .awaitCredit s => s
  | .awaitAck s _ => s

/-- `PublishBuilder` (`sink.rs:143-146`): the packet under construction
(`shared` is passed explicitly to the send functions in this embedding). -/
structure PublishBuilder where
  packet : Publish
deriving DecidableEq, Repr

/-- `MqttSink::publish` (`sink.rs:69-81`): fresh builder — QoS 0, no id, no
dup, no retain. -/
def publish (topic : String) (payload : List Nat) : PublishBuilder :=
  ⟨{ topic := topic, payload := payload, dup := false, retain := false,
     qos := .atMostOnce, packet_id := none }⟩

/-- `PublishBuilder::packet_id` (`sink.rs:156-160`); the source panics on 0
(`NonZeroU16::new(id).expect(..)`), so it is only defined for nonzero ids. -/
def PublishBuilder.packet_id (b : PublishBuilder) (id : Nat) (_h : id ≠ 0) :
    PublishBuilder :=
  ⟨{ b.packet with packet_id := some id }⟩

/-- `PublishBuilder::dup` (`sink.rs:163-166`). -/
def PublishBuilder.dup (b : PublishBuilder) (val : Bool) : PublishBuilder :=
  ⟨{ b.packet with dup := val }⟩

/-- `PublishBuilder::retain` (`sink.rs:168-171`). -/
def PublishBuilder.retain (b : PublishBuilder) : PublishBuilder :=
  ⟨{ b.packet with retain := true }⟩

/-- `PublishBuilder::send_at_most_once` (`sink.rs:174-189`): if the
connection is open, synchronously encode the packet as built
(`map_err(Encode)`); otherwise fail `Disconnected`.  The queues are never
touched. -/
def PublishBuilder.send_at_most_once (b : PublishBuilder)
    (enc : Packet → Option EncodeError) (s : MqttShared) :
    MqttShared × SendResult :=
  if is_open s then
    match writeEncode enc s (.publish b.packet) with
    | (s', none) => (s', .ok)
    | (s', some e) => (s', .fail (.Encode e))
  else
    (s, .fail .Disconnected)

/-- `PublishBuilder::send_at_least_once` (`sink.rs:193-239`): set QoS 1;
fail `Disconnected` if closed; if no credit, enqueue a live waiter and
suspend; resolve the packet id (user id if nonzero, else `next_id`); fail
`PacketIdInUse` if the id is in the inflight map; register
`(id, AckType::Publish)` in `inflight` and append the id to
`inflight_order`; encode — on success drop the borrow and await the ack, on
failure return `Encode` (the just-inserted bookkeeping is not removed). -/
def PublishBuilder.send_at_least_once (b : PublishBuilder)
    (enc : Packet → Option EncodeError) (s : MqttShared) : SendStep :=
  let packet := { b.packet with qos := QoS.atLeastOnce }
  if is_open s then
    if has_credit s = false then
      .awaitCredit { s with queues := { s.queues with waiters := s.queues.waiters ++ [true] } }
    else
      let j := packet.packet_id.getD 0
      let (idx, packet, s) :=
        if j == 0 then
          let (i, s') := next_id s
          (i, { packet with packet_id := some i }, s')
        else (j, packet, s)
      if containsId s.queues.inflight idx then
        .ret s (.fail (.PacketIdInUse idx))
      else
        let s := { s with queues := { s.queues with
                     inflight := s.queues.inflight ++ [⟨idx, true, AckType.publish⟩],
                     inflight_order := s.queues.inflight_order ++ [idx] } }
        match writeEncode enc s (.publish packet) with
        | (s', none) => .awaitAck s' idx
        | (s', some e) => .ret s' (.fail (.Encode e))
  else
    .ret s (.fail .Disconnected)

/-- `SubscribeBuilder` (`sink.rs:243-247`): `id = 0` means auto-allocate. -/
structure SubscribeBuilder where
  id : Nat
  topic_filters : List (String × QoS)
deriving DecidableEq, Repr

/-- `MqttSink::subscribe` (`sink.rs:86-88`). -/
def subscribe : SubscribeBuilder :=
  ⟨0, []⟩

/-- `SubscribeBuilder::packet_id` (`sink.rs:253-259`); the source panics on
0, so it is only defined for nonzero ids. -/
def SubscribeBuilder.packet_id (b : SubscribeBuilder) (id : Nat) (_h : id ≠ 0) :
    SubscribeBuilder :=
  ⟨id, b.topic_filters⟩

/-- `SubscribeBuilder::topic_filter` (`sink.rs:262-265`). -/
def SubscribeBuilder.topic_filter (b : SubscribeBuilder) (f : String) (q : QoS) :
    SubscribeBuilder :=
  ⟨b.id, b.topic_filters ++ [(f, q)]⟩

/-- `SubscribeBuilder::send` (`sink.rs:269-320`): same shape as the QoS-1
publish but with `AckType::Subscribe` and a `Subscribe` packet. -/
def SubscribeBuilder.send (b : SubscribeBuilder)
    (enc : Packet → Option EncodeError) (s : MqttShared) : SendStep :=
  if is_open s then
    if has_credit s = false then
      .awaitCredit { s with queues := { s.queues with waiters := s.queues.waiters ++ [true] } }
    else
      let (idx, s) :=
        if b.id == 0 then
          let (i, s') := next_id s
          (i, s')
        else (b.id, s)
      if containsId s.queues.inflight idx then
        .ret s (.fail (.PacketIdInUse idx))
      else
        let s := { s with queues := { s.queues with
                     inflight := s.queues.inflight ++ [⟨idx, true, AckType.subscribe⟩],
                     inflight_order := s.queues.inflight_order ++ [idx] } }
        match writeEncode enc s (.subscribe idx b.topic_filters) with
        | (s', none) => .awaitAck s' idx
        | (s', some e) => .ret s' (.fail (.Encode e))
  else
    .ret s (.fail .Disconnected)

/-- `UnsubscribeBuilder` (`sink.rs:324-328`): `id = 0` means auto-allocate. -/
structure UnsubscribeBuilder where
  id : Nat
  topic_filters : List String
deriving DecidableEq, Repr

/-- `MqttSink::unsubscribe` (`sink.rs:91-93`). -/
def unsubscribe : UnsubscribeBuilder :=
  ⟨0, []⟩

/-- `UnsubscribeBuilder::packet_id` (`sink.rs:334-340`); the source panics
on 0, so it is only defined for nonzero ids. -/
def UnsubscribeBuilder.packet_id (b : UnsubscribeBuilder) (id : Nat) (_h : id ≠ 0) :
    UnsubscribeBuilder :=
  ⟨id, b.topic_filters⟩

/-- `UnsubscribeBuilder::topic_filter` (`sink.rs:343-346`). -/
def UnsubscribeBuilder.topic_filter (b : UnsubscribeBuilder) (f : String) :
    UnsubscribeBuilder :=
  ⟨b.id, b.topic_filters ++ [f]⟩

/-- `UnsubscribeBuilder::send` (`sink.rs:350-399`): same shape as the QoS-1
publish but with `AckType::Unsubscribe` and an `Unsubscribe` packet. -/
def UnsubscribeBuilder.send (b : UnsubscribeBuilder)
    (enc : Packet → Option EncodeError) (s : MqttShared) : SendStep :=
  if is_open s then
    if has_credit s = false then
      .awaitCredit { s with queues := { s.queues with waiters := s.queues.waiters ++ [true] } }
    else
      let (idx, s) :=
        if b.id == 0 then
          let (i, s') := next_id s
          (i, s')
        else (b.id, s)
      if containsId s.queues.inflight idx then
        .ret s (.fail (.PacketIdInUse idx))
      else
        let s := { s with queues := { s.queues with
                     inflight := s.queues.inflight ++ [⟨idx, true, AckType.unsubscribe⟩],
                     inflight_order := s.queues.inflight_order ++ [idx] } }
        match writeEncode enc s (.unsubscribe idx b.topic_filters) with
        | (s', none) => .awaitAck s' idx
        | (s', some e) => .ret s' (.fail (.Encode e))
  else
    .ret s (.fail .Disconnected)

/-- The packet id a QoS-1 publish send resolves to (`sink.rs:214-218`): the
user-supplied id when nonzero, otherwise the allocator's next id. -/
def resolvedPubId (s : MqttShared) (b : PublishBuilder) : Nat :=
  let j := b.packet.packet_id.getD 0
  if j == 0 then (next_id s).1 else j

/-- The shared state right after id resolution of a QoS-1 publish send: the
allocator's counter advanced iff the id was auto-allocated. -/
def pubIdState (s : MqttShared) (b : PublishBuilder) : MqttShared :=
  let j := b.packet.packet_id.getD 0
  if j == 0 then (next_id s).2 else s

/-- The PUBLISH packet a QoS-1 publish send encodes (`sink.rs:196,217`): the
built packet with QoS 1 and the resolved packet id. -/
def resolvedPubPacket (s : MqttShared) (b : PublishBuilder) : Publish :=
  let p := { b.packet with qos := QoS.atLeastOnce }
  let j := p.packet_id.getD 0
  if j == 0 then { p with packet_id := some (next_id s).1 } else p

/-- The packet id a subscribe/unsubscribe send resolves to
(`sink.rs:289,370`). -/
def resolvedSubId (s : MqttShared) (id : Nat) : Nat :=
  if id == 0 then (next_id s).1 else id

/-- The shared state right after id resolution of a subscribe/unsubscribe
send. -/
def subIdState (s : MqttShared) (id : Nat) : MqttShared :=
  if id == 0 then (next_id s).2 else s

/-- The shared state after registering `(idx, tp)` for an outbound send: the
entry is appended to the inflight map and the id to `inflight_order`
(`sink.rs:222-223,293-294,374-375`). -/
def registered (s : MqttShared) (idx : Nat) (tp : AckType) : MqttShared :=
  { s with queues := ⟨s.queues.inflight ++ [⟨idx, true, tp⟩],
                      s.queues.inflight_order ++ [idx],
                      s.queues.waiters⟩ }

end V3

namespace V5

/-- Modelled from the spec (§6, the v5 codec is not under src/): the fields
of a v5 CONNECT that `handshake` reads (`server.rs:416-421`).
`receive_max : Option<NonZeroU16>` and `max_packet_size : Option<NonZeroU32>`
are `Option Nat`. -/
structure Connect where
  receive_max : Option Nat
  max_packet_size : Option Nat
  keep_alive : Nat
deriving DecidableEq, Repr

/-- Modelled from the spec (§4.3, the v5 codec is not under src/): the
CONNACK fields `handshake` reads or rewrites (`server.rs:440-458`). -/
structure ConnectAck where
  topic_alias_max : Nat
  max_qos : Option QoS
  receive_max : Option Nat
  max_packet_size : Option Nat
  server_keepalive_sec : Option Nat
deriving DecidableEq, Repr

/-- Modelled from the spec (§6, the v5 codec is not under src/): the v5
packets relevant to the handshake, with their MQTT control-packet type codes
(`packet_type()`): CONNECT=1, CONNACK=2, PINGREQ=12, DISCONNECT=14. -/
inductive Packet
  | connect (c : Connect)
  | connectAck (a : ConnectAck)
  | pingRequest
  | disconnect
deriving DecidableEq, Repr

/-- `Packet::packet_type()` as used at `server.rs:502`. -/
def Packet.packet_type : Packet → Nat
  | .connect _ => 1
  | .connectAck _ => 2
  | .pingRequest => 12
  | .disconnect => 14

/-- Modelled from the spec (§4.1, the v5 `shared.rs` is not under src/): the
pieces of the v5 `MqttShared` that `handshake` writes — the inbound/outbound
codec limits and the receive-maximum `cap` (`server.rs:393-419`). -/
structure MqttShared where
  cap : Nat
  maxInboundSize : Nat
  maxOutboundSize : Nat
deriving DecidableEq, Repr

/-- Decode/read error of the external codec during the first read
(`server.rs:399-405`); opaque to the handshake, which converts it with
`MqttError::from`. -/
structure CodecError where
  code : Nat
deriving DecidableEq, Repr

/-- `error::ProtocolError` as constructed by the v5 handshake
(`server.rs:501-504`; `error.rs` is not under src/, payload shape from the
constructor call and the spec §6). -/
inductive ProtocolError
  | Unexpected (packetType : Nat) (reason : String)
deriving DecidableEq, Repr

/-- `error::MqttError` variants reachable from `handshake` (`error.rs` is
not under src/; variants from the constructor calls in `server.rs` and the
spec §6): a user-service error, `Disconnected`, a protocol error, the
handshake timeout of the surrounding `Timeout` wrapper, and the
`MqttError::from` image of a first-read codec error. -/
inductive MqttError (E : Type)
  | Service (e : E)
  | Disconnected
  | Protocol (p : ProtocolError)
  | HandshakeTimeout
  | Codec (e : CodecError)
deriving DecidableEq, Repr

/-- `HandshakeAck` as consumed by `handshake` (`handshake.rs` is not under
src/; fields from the accesses at `server.rs:435-462`): the user's session
decision, the CONNACK to send, the shared state handed back, and the
keepalive.  The io handle and buffer parameters are transport plumbing with
no effect on the modelled state. -/
structure HandshakeAck (St : Type) where
  session : Option St
  packet : ConnectAck
  shared : MqttShared
  keepalive : Nat
deriving DecidableEq, Repr

/-- `Session::new_v5` as used at `server.rs:469-474` (`session.rs` is not
under src/): user state plus the negotiated limits. -/
structure Session (St : Type) where
  st : St
  max_receive : Nat
  max_topic_alias : Nat
deriving DecidableEq, Repr

/-- The data `handshake` hands to the dispatcher on success
(`server.rs:465-476`), together with the CONNACK actually written. -/
structure HandshakeOut (St : Type) where
  shared : MqttShared
  session : Session St
  keepalive : Nat
  connack : ConnectAck
deriving DecidableEq, Repr

/-- Result of `handshake`. -/
inductive HandshakeRes (St E : Type)
  | ok (out : HandshakeOut St)
  | err (e : MqttError E)
deriving DecidableEq, Repr

/-- Whether the handshake produced a `Session` (the `Ok` result carries the
`Session` built at `server.rs:469-474`; every `Err` leaves none). -/
def HandshakeRes.sessionCreated {St E : Type} : HandshakeRes St E → Bool
  | .ok _ => true
  | .err _ => false

/-- The `cap` of the shared state handed to the dispatcher, when the
handshake succeeded. -/
def HandshakeRes.sharedCap {St E : Type} : HandshakeRes St E → Option Nat
  | .ok out => some out.shared.cap
  | .err _ => none

/-- The negotiated `max_receive` carried by the produced `Session`, when the
handshake succeeded. -/
def HandshakeRes.sessionMaxReceive {St E : Type} : HandshakeRes St E → Option Nat
  | .ok out => some out.session.max_receive
  | .err _ => none

/-- `handshake` (`server.rs:376-507`).  External interactions are
parameters: `firstRead` — the outcome of reading one frame
(`Except` error = decode/io error, `none` = stream ended); `service` — the
user handshake service, receiving the CONNECT and the shared state exactly
as configured at the call site (`server.rs:424-433`); `sendConnAckOk` —
whether writing the CONNACK succeeds (`server.rs:461-463`; on failure the
handshake fails `Disconnected`, modelled from the spec §4.3 step 6, as the
error conversion lives in the absent `error.rs`).  Fresh shared state has
`cap = 0` (`MqttShared::new(.., 0, pool)`), inbound limit `max_size`
(`set_max_inbound_size`), outbound limit 0. -/
def handshake {St E : Type}
    (firstRead : Except CodecError (Option Packet))
    (service : Connect → MqttShared → Except E (HandshakeAck St))
    (sendConnAckOk : Bool)
    (max_size : Nat) (max_qos : Option QoS) :
    HandshakeRes St E :=
  let shared : MqttShared :=
    { cap := 0, maxInboundSize := max_size, maxOutboundSize := 0 }
  match firstRead with
  | .error e => .err (.Codec e)
  | .ok none => .err .Disconnected
  | .ok (some (Packet.connect connect)) =>
      let shared :=
        match connect.max_packet_size with
        | some size => { shared with maxOutboundSize := size }
        | none => shared
      let shared := { shared with cap := connect.receive_max.getD 16 }
      let keep_alive := connect.keep_alive
      match service connect shared with
      | .error e => .err (.Service e)
      | .ok ack =>
          match ack.session with
          | some session =>
              let shared := ack.shared
              let max_topic_alias := ack.packet.topic_alias_max
              let packet :=
                if ack.packet.max_qos.isNone then
                  { ack.packet with max_qos := max_qos }
                else ack.packet
              let max_receive :=
                match packet.receive_max with
                | some num => num
                | none => 0
              let shared :=
                match packet.max_packet_size with
                | some size => { shared with maxInboundSize := size }
                | none => shared
              let packet :=
                if packet.server_keepalive_sec.isNone && decide (keep_alive > ack.keepalive) then
                  { packet with server_keepalive_sec := some ack.keepalive }
                else packet
              if sendConnAckOk then
                .ok ⟨shared, ⟨session, max_receive, max_topic_alias⟩, ack.keepalive, packet⟩
              else .err .Disconnected
          | none =>
              -- rejection CONNACK written best-effort, then `Err(Disconnected)`
              -- (`server.rs:478-496`)
              .err .Disconnected
  | .ok (some packet) =>
      .err (.Protocol (.Unexpected packet.packet_type
        "MQTT-3.1.0-1: Expected CONNECT packet"))

end V5

end Mqtt

namespace Mqtt

namespace V3

theorem wakeOne_woke_iff (ws : List Bool) : (wakeOne ws).2 = true ↔ true ∈ ws := by
  induction ws with
  | nil => simp [wakeOne]
  | cons w rest ih => cases w <;> simp [wakeOne, ih]

theorem wakeOne_all_dead (ws : List Bool) (h : true ∉ ws) : wakeOne ws = ([], false) := by
  induction ws with
  | nil => rfl
  | cons w rest ih =>
      cases w
      · simpa [wakeOne] using ih (fun hmem => h (List.mem_cons_of_mem _ hmem))
      · exact absurd (List.mem_cons_self _ _) h

theorem wakeOne_skips_dead (dead post : List Bool) (hdead : ∀ x ∈ dead, x = false) :
    wakeOne (dead ++ true :: post) = (post, true) := by
  induction dead with
  | nil => simp [wakeOne]
  | cons w ws ih =>
      have hw : w = false := hdead w (List.mem_cons_self _ _)
      subst hw
      simpa [wakeOne] using ih (fun x hx => hdead x (List.mem_cons_of_mem _ hx))

/-- C2 (amended): `close()` clears the inflight map and the waiters queue
(dropping every queued waiter's one-shot sender, which signals failure to
its receiver), leaves the connection not open, and is idempotent — but the
`inflight_order` sequence is NOT drained: it is left unchanged.  The same
holds for `force_close()`. -/
theorem close_clears_inflight_waiters_idempotent (s : MqttShared) :
    (close s).queues.inflight = [] ∧
    (close s).queues.waiters = [] ∧
    (close s).queues.inflight_order = s.queues.inflight_order ∧
    is_open (close s) = false ∧
    close (close s) = close s ∧
    (force_close s).queues.inflight = [] ∧
    (force_close s).queues.waiters = [] ∧
    (force_close s).queues.inflight_order = s.queues.inflight_order ∧
    is_open (force_close s) = false ∧
    force_close (force_close s) = force_close s := by
  obtain ⟨fr, cap, ctr, wr, infl, ord, wt⟩ := s
  cases fr <;> simp [close, force_close, is_open]

/-- C2 counterexample: on a connection with one unacked send, `close()`
leaves `inflight_order` holding the sent id — it does not drain both
inflight collections as the claim states. -/
theorem close_does_not_drain_inflight_order :
    (close ⟨.opened, 2, 0, [], ⟨[⟨1, true, .publish⟩], [1], []⟩⟩).queues.inflight_order = [1] ∧
    ([1] : List Nat) ≠ [] :=
  ⟨rfl, by decide⟩

/-- C3: on an ack with empty `inflight_order`, and on an ack whose id is not
the head of `inflight_order` (ids 1,2,3 inflight, ack for 2 arrives first),
`pkt_ack` does not close-and-return `PacketIdMismatch`: it reaches
`self.close()` (`sink.rs:132`) while the `RefMut` of `self.0.queues` taken at
`sink.rs:96` is still alive, and `close` re-borrows the same `RefCell`
(`sink.rs:47`) — a `BorrowMutError` panic, so the `Err(PacketIdMismatch)` at
`sink.rs:133` is never returned and the pending send-futures are not failed
by this call. -/
theorem pkt_ack_unordered_ack_borrow_panic :
    pkt_ack ⟨.opened, 2, 0, [], ⟨[], [], []⟩⟩ ⟨1, .publish⟩ = .borrowPanic ∧
    pkt_ack ⟨.opened, 3, 0, [],
        ⟨[⟨1, true, .publish⟩, ⟨2, true, .publish⟩, ⟨3, true, .publish⟩], [1, 2, 3], []⟩⟩
      ⟨2, .publish⟩ = .borrowPanic :=
  ⟨rfl, rfl⟩

/-- C4: on an ack whose id matches the head of `inflight_order` but whose
type does not match the registered `AckType` (a PUBACK for an id registered
as Subscribe), `pkt_ack` does not close-and-return `Unexpected`: it calls
`self.close()` (`sink.rs:113`) while the `RefMut` of `self.0.queues` taken at
`sink.rs:96` is still alive, and `close` re-borrows the same `RefCell`
(`sink.rs:47`) — a `BorrowMutError` panic, so the `Err(Unexpected(..))` at
`sink.rs:114` is never returned.  (The entry is removed from `inflight`
before the panic, and the ack is not delivered to the caller's channel.) -/
theorem pkt_ack_type_mismatch_borrow_panic :
    pkt_ack ⟨.opened, 2, 0, [], ⟨[⟨1, true, .subscribe⟩], [1], []⟩⟩ ⟨1, .publish⟩ =
      .borrowPanic :=
  rfl

/-- C5: for an ack matching the head of `inflight_order` in both id and
registered type, `pkt_ack` removes the entry, delivers the ack into its
reply channel (delivery to a dropped receiver is attempted and ignored — the
call still returns success), pops the order head, then wakes at most one
waiter: the waiters FIFO is popped from the front, dead waiters are
discarded, and the loop stops at the first successful wake or an empty
queue; the call returns `Ok(())`. -/
theorem pkt_ack_matched_ack_delivers_wakes_at_most_one
    (s : MqttShared) (a : Ack) (e : InflightEntry) (rest : List Nat)
    (infl' : List InflightEntry)
    (horder : s.queues.inflight_order = a.packet_id :: rest)
    (hrem : removeEntry s.queues.inflight a.packet_id = some (e, infl'))
    (hmatch : a.is_match e.tp = true) :
    pkt_ack s a =
      .done { s with queues := ⟨infl', rest, (wakeOne s.queues.waiters).1⟩ }
        (wakeOne s.queues.waiters).2 ⟨a.packet_id, e.rxAlive⟩ .ok ∧
    ((wakeOne s.queues.waiters).2 = true ↔ true ∈ s.queues.waiters) ∧
    (∀ dead post, s.queues.waiters = dead ++ true :: post →
        (∀ x ∈ dead, x = false) → wakeOne s.queues.waiters = (post, true)) ∧
    (true ∉ s.queues.waiters → wakeOne s.queues.waiters = ([], false)) := by
  refine ⟨?_, wakeOne_woke_iff _, ?_, wakeOne_all_dead _⟩
  · unfold pkt_ack
    rw [horder]
    simp [hrem, hmatch]
  · intro dead post hw hdead
    rw [hw]
    exact wakeOne_skips_dead dead post hdead

theorem pkt_ack_matched_ack_delivers_wakes_at_most_one_witness :
    pkt_ack ⟨.opened, 3, 0, [], ⟨[⟨1, true, .publish⟩], [1], [false, true, true]⟩⟩
        ⟨1, .publish⟩ =
      .done ⟨.opened, 3, 0, [], ⟨[], [], [true]⟩⟩ true ⟨1, true⟩ .ok :=
  (pkt_ack_matched_ack_delivers_wakes_at_most_one
    ⟨.opened, 3, 0, [], ⟨[⟨1, true, .publish⟩], [1], [false, true, true]⟩⟩
    ⟨1, .publish⟩ ⟨1, true, .publish⟩ [] [] rfl rfl rfl).1

theorem next_id_queues (s : MqttShared) : (next_id s).2.queues = s.queues := rfl

theorem next_id_cap (s : MqttShared) : (next_id s).2.cap = s.cap := rfl

theorem next_id_framed (s : MqttShared) : (next_id s).2.framed = s.framed := rfl

theorem pubIdState_queues (s : MqttShared) (b : PublishBuilder) :
    (pubIdState s b).queues = s.queues := by
  cases hj : b.packet.packet_id.getD 0 == 0 <;> simp [pubIdState, hj, next_id]

theorem pubIdState_cap (s : MqttShared) (b : PublishBuilder) :
    (pubIdState s b).cap = s.cap := by
  cases hj : b.packet.packet_id.getD 0 == 0 <;> simp [pubIdState, hj, next_id]

theorem pubIdState_framed (s : MqttShared) (b : PublishBuilder) :
    (pubIdState s b).framed = s.framed := by
  cases hj : b.packet.packet_id.getD 0 == 0 <;> simp [pubIdState, hj, next_id]

theorem subIdState_queues (s : MqttShared) (id : Nat) :
    (subIdState s id).queues = s.queues := by
  cases hj : id == 0 <;> simp [subIdState, hj, next_id]

theorem subIdState_cap (s : MqttShared) (id : Nat) :
    (subIdState s id).cap = s.cap := by
  cases hj : id == 0 <;> simp [subIdState, hj, next_id]

theorem subIdState_framed (s : MqttShared) (id : Nat) :
    (subIdState s id).framed = s.framed := by
  cases hj : id == 0 <;> simp [subIdState, hj, next_id]

theorem sendAtLeastOnce_closed (b : PublishBuilder) (enc : Packet → Option EncodeError)
    (s : MqttShared) (hop : is_open s = false) :
    b.send_at_least_once enc s = .ret s (.fail .Disconnected) := by
  simp [PublishBuilder.send_at_least_once, hop]

theorem sendAtLeastOnce_inUse (b : PublishBuilder) (enc : Packet → Option EncodeError)
    (s : MqttShared) (hop : is_open s = true) (hcr : has_credit s = true)
    (hin : containsId s.queues.inflight (resolvedPubId s b) = true) :
    b.send_at_least_once enc s =
      .ret (pubIdState s b) (.fail (.PacketIdInUse (resolvedPubId s b))) := by
  cases hj : b.packet.packet_id.getD 0 == 0 <;>
    simp [PublishBuilder.send_at_least_once, resolvedPubId, pubIdState, hop, hcr, hj,
      next_id] at hin ⊢ <;>
    simp [hin]

theorem sendAtLeastOnce_encodeFail (b : PublishBuilder) (enc : Packet → Option EncodeError)
    (s : MqttShared) (e : EncodeError) (hop : is_open s = true) (hcr : has_credit s = true)
    (hfree : containsId s.queues.inflight (resolvedPubId s b) = false)
    (henc : enc (.publish (resolvedPubPacket s b)) = some e) :
    b.send_at_least_once enc s =
      .ret (registered (pubIdState s b) (resolvedPubId s b) .publish)
        (.fail (.Encode e)) := by
  cases hj : b.packet.packet_id.getD 0 == 0 <;>
    simp [PublishBuilder.send_at_least_once, resolvedPubId, resolvedPubPacket, pubIdState,
      registered, writeEncode, hop, hcr, hj, next_id] at hfree henc ⊢ <;>
    simp [hfree, henc]

theorem sendAtLeastOnce_encodeOk (b : PublishBuilder) (enc : Packet → Option EncodeError)
    (s : MqttShared) (hop : is_open s = true) (hcr : has_credit s = true)
    (hfree : containsId s.queues.inflight (resolvedPubId s b) = false)
    (henc : enc (.publish (resolvedPubPacket s b)) = none) :
    b.send_at_least_once enc s =
      .awaitAck { registered (pubIdState s b) (resolvedPubId s b) .publish with
                    written := s.written ++ [.publish (resolvedPubPacket s b)] }
        (resolvedPubId s b) := by
  cases hj : b.packet.packet_id.getD 0 == 0 <;>
    simp [PublishBuilder.send_at_least_once, resolvedPubId, resolvedPubPacket, pubIdState,
      registered, writeEncode, hop, hcr, hj, next_id] at hfree henc ⊢ <;>
    simp [hfree, henc]

theorem subscribeSend_inUse (b : SubscribeBuilder) (enc : Packet → Option EncodeError)
    (s : MqttShared) (hop : is_open s = true) (hcr : has_credit s = true)
    (hin : containsId s.queues.inflight (resolvedSubId s b.id) = true) :
    b.send enc s =
      .ret (subIdState s b.id) (.fail (.PacketIdInUse (resolvedSubId s b.id))) := by
  cases hj : b.id == 0 <;>
    simp [SubscribeBuilder.send, resolvedSubId, subIdState, hop, hcr, hj, next_id] at hin ⊢ <;>
    simp [hin]

theorem unsubscribeSend_inUse (b : UnsubscribeBuilder) (enc : Packet → Option EncodeError)
    (s : MqttShared) (hop : is_open s = true) (hcr : has_credit s = true)
    (hin : containsId s.queues.inflight (resolvedSubId s b.id) = true) :
    b.send enc s =
      .ret (subIdState s b.id) (.fail (.PacketIdInUse (resolvedSubId s b.id))) := by
  cases hj : b.id == 0 <;>
    simp [UnsubscribeBuilder.send, resolvedSubId, subIdState, hop, hcr, hj, next_id] at hin ⊢ <;>
    simp [hin]

theorem pubIdState_written (s : MqttShared) (b : PublishBuilder) :
    (pubIdState s b).written = s.written := by
  cases hj : b.packet.packet_id.getD 0 == 0 <;> simp [pubIdState, hj, next_id]

/-- C1 (amended): for a QoS-1 publish on an open connection with credit
whose resolved id is not yet inflight, if encoding the PUBLISH fails the
call returns the `Encode` error WITHOUT removing the bookkeeping it just
registered: the returned state's `inflight` is the previous map with the new
entry appended and `inflight_order` is the previous sequence with the id
appended (and nothing was written to the wire), so the shared queues are
NOT left as they were before the call. -/
theorem sendAtLeastOnce_encode_error_keeps_bookkeeping
    (b : PublishBuilder) (enc : Packet → Option EncodeError) (s : MqttShared)
    (e : EncodeError) (hop : is_open s = true) (hcr : has_credit s = true)
    (hfree : containsId s.queues.inflight (resolvedPubId s b) = false)
    (henc : enc (.publish (resolvedPubPacket s b)) = some e) :
    b.send_at_least_once enc s =
      .ret (registered (pubIdState s b) (resolvedPubId s b) .publish)
        (.fail (.Encode e)) ∧
    (registered (pubIdState s b) (resolvedPubId s b) .publish).queues.inflight =
      s.queues.inflight ++ [⟨resolvedPubId s b, true, .publish⟩] ∧
    (registered (pubIdState s b) (resolvedPubId s b) .publish).queues.inflight_order =
      s.queues.inflight_order ++ [resolvedPubId s b] ∧
    (registered (pubIdState s b) (resolvedPubId s b) .publish).written = s.written := by
  refine ⟨sendAtLeastOnce_encodeFail b enc s e hop hcr hfree henc, ?_, ?_, ?_⟩ <;>
    simp [registered, pubIdState_queues, pubIdState_written]

theorem sendAtLeastOnce_encode_error_keeps_bookkeeping_witness :
    ((publish "u" [1]).packet_id 9 (by decide)).send_at_least_once (fun _ => some ⟨3⟩)
        ⟨.opened, 4, 0, [], ⟨[⟨1, true, .publish⟩], [1], []⟩⟩ =
      .ret ⟨.opened, 4, 0, [], ⟨[⟨1, true, .publish⟩, ⟨9, true, .publish⟩], [1, 9], []⟩⟩
        (.fail (.Encode ⟨3⟩)) :=
  (sendAtLeastOnce_encode_error_keeps_bookkeeping
    ((publish "u" [1]).packet_id 9 (by decide)) (fun _ => some ⟨3⟩)
    ⟨.opened, 4, 0, [], ⟨[⟨1, true, .publish⟩], [1], []⟩⟩ ⟨3⟩ rfl rfl rfl rfl).1

/-- C1 counterexample: with user id 5, credit available and a failing
encoder, the QoS-1 send returns the `Encode` error while the freshly
registered bookkeeping is still present — `inflight` holds the entry for id
5 and `inflight_order` holds 5, both nonempty, although they were empty
before the call. -/
theorem sendAtLeastOnce_encode_error_counterexample :
    ((publish "t" []).packet_id 5 (by decide)).send_at_least_once (fun _ => some ⟨7⟩)
        ⟨.opened, 2, 0, [], ⟨[], [], []⟩⟩ =
      .ret ⟨.opened, 2, 0, [], ⟨[⟨5, true, .publish⟩], [5], []⟩⟩
        (.fail (.Encode ⟨7⟩)) ∧
    ([⟨5, true, .publish⟩] : List InflightEntry) ≠ [] :=
  ⟨rfl, by decide⟩

/-- C6: for any send — QoS-1 publish, subscribe or unsubscribe — on an open
connection with credit, whose resolved packet id (user-supplied, or the
allocator's pick) is already a key of the inflight map, the call returns
`PacketIdInUse` with that id, the connection stays open (`framed`
unchanged), and the three queues are unchanged (only the allocator counter
may have advanced when the id was auto-allocated). -/
theorem send_packet_id_in_use_rejected (s : MqttShared) (enc : Packet → Option EncodeError)
    (hop : is_open s = true) (hcr : has_credit s = true) :
    (∀ b : PublishBuilder, containsId s.queues.inflight (resolvedPubId s b) = true →
        b.send_at_least_once enc s =
          .ret (pubIdState s b) (.fail (.PacketIdInUse (resolvedPubId s b))) ∧
        (pubIdState s b).queues = s.queues ∧ (pubIdState s b).framed = s.framed) ∧
    (∀ b : SubscribeBuilder, containsId s.queues.inflight (resolvedSubId s b.id) = true →
        b.send enc s =
          .ret (subIdState s b.id) (.fail (.PacketIdInUse (resolvedSubId s b.id))) ∧
        (subIdState s b.id).queues = s.queues ∧ (subIdState s b.id).framed = s.framed) ∧
    (∀ b : UnsubscribeBuilder, containsId s.queues.inflight (resolvedSubId s b.id) = true →
        b.send enc s =
          .ret (subIdState s b.id) (.fail (.PacketIdInUse (resolvedSubId s b.id))) ∧
        (subIdState s b.id).queues = s.queues ∧ (subIdState s b.id).framed = s.framed) :=
  ⟨fun b hin => ⟨sendAtLeastOnce_inUse b enc s hop hcr hin,
      pubIdState_queues s b, pubIdState_framed s b⟩,
   fun b hin => ⟨subscribeSend_inUse b enc s hop hcr hin,
      subIdState_queues s b.id, subIdState_framed s b.id⟩,
   fun b hin => ⟨unsubscribeSend_inUse b enc s hop hcr hin,
      subIdState_queues s b.id, subIdState_framed s b.id⟩⟩

theorem send_packet_id_in_use_rejected_witness :
    ((publish "t" []).packet_id 1 (by decide)).send_at_least_once (fun _ => none)
        ⟨.opened, 4, 0, [], ⟨[⟨1, true, .publish⟩], [1], []⟩⟩ =
      .ret ⟨.opened, 4, 0, [], ⟨[⟨1, true, .publish⟩], [1], []⟩⟩
        (.fail (.PacketIdInUse 1)) :=
  ((send_packet_id_in_use_rejected ⟨.opened, 4, 0, [], ⟨[⟨1, true, .publish⟩], [1], []⟩⟩
      (fun _ => none) rfl rfl).1 ((publish "t" []).packet_id 1 (by decide)) rfl).1

/-- C9: a QoS-0 publish (`send_at_most_once`) is synchronous and leaves
`inflight`, `inflight_order` and `waiters` (the whole queues record), the
cap and the framed state unchanged in every case; on an open connection it
returns `Ok` and appends exactly one QoS-0 PUBLISH with the built topic and
payload to the write buffer when encoding succeeds, returns the `Encode`
error (writing nothing) when encoding fails, and on a closed connection it
returns `Disconnected`. -/
theorem sendAtMostOnce_cases (enc : Packet → Option EncodeError) (s : MqttShared)
    (topic : String) (payload : List Nat) :
    ((publish topic payload).send_at_most_once enc s).1.queues = s.queues ∧
    ((publish topic payload).send_at_most_once enc s).1.cap = s.cap ∧
    ((publish topic payload).send_at_most_once enc s).1.framed = s.framed ∧
    (is_open s = false →
        (publish topic payload).send_at_most_once enc s = (s, .fail .Disconnected)) ∧
    (is_open s = true →
        (enc (.publish (publish topic payload).packet) = none →
            (publish topic payload).send_at_most_once enc s =
              ({ s with written := s.written ++ [.publish (publish topic payload).packet] },
                .ok)) ∧
        (∀ e, enc (.publish (publish topic payload).packet) = some e →
            (publish topic payload).send_at_most_once enc s = (s, .fail (.Encode e)))) ∧
    (publish topic payload).packet.qos = .atMostOnce := by
  have hpkt : (publish topic payload).packet =
      { topic := topic, payload := payload, dup := false, retain := false,
        qos := QoS.atMostOnce, packet_id := none } := rfl
  cases hop : is_open s
  · simp [PublishBuilder.send_at_most_once, publish, hop]
  · cases henc : enc (.publish (publish topic payload).packet) <;>
      rw [hpkt] at henc <;>
      simp [PublishBuilder.send_at_most_once, writeEncode, publish, hop, henc]

theorem sendAtMostOnce_cases_witness :
    is_open (⟨.opened, 2, 0, [], ⟨[], [], []⟩⟩ : MqttShared) = true ∧
    (publish "t/a" [222, 173, 190, 239]).send_at_most_once (fun _ => none)
        ⟨.opened, 2, 0, [], ⟨[], [], []⟩⟩ =
      (⟨.opened, 2, 0,
         [.publish ⟨"t/a", [222, 173, 190, 239], false, false, .atMostOnce, none⟩],
         ⟨[], [], []⟩⟩, .ok) :=
  ⟨rfl, ((sendAtMostOnce_cases (fun _ => none) ⟨.opened, 2, 0, [], ⟨[], [], []⟩⟩
      "t/a" [222, 173, 190, 239]).2.2.2.2.1 rfl).1 rfl⟩

/-- C10: under the invariant `|inflight| ≤ cap`, `credit()` returns exactly
`cap − |inflight|` (the usize subtraction cannot underflow: adding
`|inflight|` back recovers `cap`), and a QoS-1 send issued under
`has_credit()` keeps the invariant — whatever branch the send takes, the
resulting shared state has `|inflight| ≤ cap` with `cap` unchanged. -/
theorem credit_exact_and_gated_send_keeps_invariant (s : MqttShared)
    (hinv : s.queues.inflight.length ≤ s.cap) :
    credit s + s.queues.inflight.length = s.cap ∧
    (∀ (enc : Packet → Option EncodeError) (b : PublishBuilder),
        has_credit s = true →
        (b.send_at_least_once enc s).state.cap = s.cap ∧
        (b.send_at_least_once enc s).state.queues.inflight.length ≤ s.cap) := by
  constructor
  · exact Nat.sub_add_cancel hinv
  · intro enc b hcr
    have hlt : s.queues.inflight.length < s.cap := of_decide_eq_true hcr
    cases hop : is_open s with
    | false =>
        rw [sendAtLeastOnce_closed b enc s hop]
        exact ⟨rfl, hinv⟩
    | true =>
        cases hin : containsId s.queues.inflight (resolvedPubId s b) with
        | true =>
            rw [sendAtLeastOnce_inUse b enc s hop hcr hin]
            simpa [SendStep.state, pubIdState_cap, pubIdState_queues] using hinv
        | false =>
            cases henc : enc (.publish (resolvedPubPacket s b)) with
            | none =>
                rw [sendAtLeastOnce_encodeOk b enc s hop hcr hin henc]
                simp [SendStep.state, registered, pubIdState_cap, pubIdState_queues]
                omega
            | some e =>
                rw [sendAtLeastOnce_encodeFail b enc s e hop hcr hin henc]
                simp [SendStep.state, registered, pubIdState_cap, pubIdState_queues]
                omega

theorem credit_exact_and_gated_send_keeps_invariant_witness :
    credit ⟨.opened, 3, 0, [], ⟨[⟨1, true, .publish⟩], [1], []⟩⟩ + 1 = 3 ∧
    ((publish "t" []).send_at_least_once (fun _ => none)
        ⟨.opened, 3, 0, [], ⟨[⟨1, true, .publish⟩], [1], []⟩⟩).state.queues.inflight.length ≤ 3 :=
  ⟨(credit_exact_and_gated_send_keeps_invariant
      ⟨.opened, 3, 0, [], ⟨[⟨1, true, .publish⟩], [1], []⟩⟩ (by decide)).1,
   ((credit_exact_and_gated_send_keeps_invariant
      ⟨.opened, 3, 0, [], ⟨[⟨1, true, .publish⟩], [1], []⟩⟩ (by decide)).2
      (fun _ => none) (publish "t" []) rfl).2⟩

end V3

namespace V5

/-- C7: in the v5 handshake, when the stream ends before any frame arrives
the handshake fails `Disconnected`, and when the first decoded frame is any
packet other than CONNECT it fails `Protocol(Unexpected)` carrying that
packet's type (with the MQTT-3.1.0-1 reason text); in both cases no
`Session` is created. -/
theorem handshake_first_frame_errors {St E : Type}
    (service : Connect → MqttShared → Except E (HandshakeAck St))
    (sendOk : Bool) (max_size : Nat) (max_qos : Option QoS) :
    (handshake (.ok none) service sendOk max_size max_qos = .err .Disconnected ∧
     (handshake (.ok none) service sendOk max_size max_qos).sessionCreated = false) ∧
    (∀ p : Packet, (∀ c, p ≠ .connect c) →
        handshake (.ok (some p)) service sendOk max_size max_qos =
          .err (.Protocol (.Unexpected p.packet_type
            "MQTT-3.1.0-1: Expected CONNECT packet")) ∧
        (handshake (.ok (some p)) service sendOk max_size max_qos).sessionCreated = false) := by
  refine ⟨⟨rfl, rfl⟩, ?_⟩
  intro p hp
  cases p with
  | connect c => exact absurd rfl (hp c)
  | connectAck a => exact ⟨rfl, rfl⟩
  | pingRequest => exact ⟨rfl, rfl⟩
  | disconnect => exact ⟨rfl, rfl⟩

theorem handshake_first_frame_errors_witness :
    @handshake Unit Unit (.ok (some .pingRequest))
        (fun _ sh => .ok ⟨some (), ⟨0, none, none, none, none⟩, sh, 30⟩) true 0 none =
      .err (.Protocol (.Unexpected 12 "MQTT-3.1.0-1: Expected CONNECT packet")) :=
  ((handshake_first_frame_errors
      (fun _ sh => .ok ⟨some (), ⟨0, none, none, none, none⟩, sh, 30⟩) true 0 none).2
    .pingRequest (fun _ h => Packet.noConfusion h)).1

/-- C8: after the v5 handshake reads a CONNECT, the shared `cap` is set to
the peer's `receive_max`, defaulting to 16 when the peer did not supply one;
and when the user accepts the session, the negotiated `max_receive` handed
to the `Session` equals the CONNACK's `receive_max` when that field is set
and 0 (unbounded) when it is not — observed through a handshake service that
accepts the session and echoes the shared state it is given. -/
theorem handshake_cap_and_session_max_receive {St E : Type} (c : Connect) (st0 : St)
    (pkt : ConnectAck) (ka : Nat) (max_size : Nat) (max_qos : Option QoS) :
    (@handshake St E (.ok (some (.connect c)))
        (fun _ sh => .ok ⟨some st0, pkt, sh, ka⟩) true max_size max_qos).sharedCap =
      some (c.receive_max.getD 16) ∧
    (@handshake St E (.ok (some (.connect c)))
        (fun _ sh => .ok ⟨some st0, pkt, sh, ka⟩) true max_size max_qos).sessionMaxReceive =
      some (match pkt.receive_max with | some n => n | none => 0) := by
  obtain ⟨tam, mq, rm, mps, sks⟩ := pkt
  cases mq <;> cases rm <;> cases mps <;> cases sks <;>
    cases hc : c.max_packet_size <;>
      simp [handshake, HandshakeRes.sharedCap, HandshakeRes.sessionMaxReceive, hc]

end V5

end Mqtt
